import Mathlib

/-!
Shallow embedding of backend/main.py of the agri-intel-agent service.

The file models the aggregation-and-synthesis pipeline: three data-source
functions (weather, satellite, TiDB history), the prompt template, and the
POST endpoint get_farm_analysis. External effects are made explicit:

* the outcome of the MySQL/TiDB connection-and-query performed inside
  query_tidb_history is a DBOutcome parameter (row found, no row, or a
  mysql.connector.Error being raised and caught);
* the LLM invocation (chain.invoke) is a function from the rendered prompt
  string to an LLMOutcome (successful content, or a raised exception that
  the except-branch turns into an HTTPException).

get_farm_analysis returns the HTTP-level result together with a Bool
recording whether the LLM was invoked on that run.
-/

/-- Request body of POST /api/get-farm-analysis (pydantic FarmDataRequest). -/
structure FarmDataRequest where
  farm_location : String
  crop_type : String
  deriving DecidableEq, Repr

/-- Return value of get_weather_data: a dict with single key forecast. -/
structure WeatherData where
  forecast : String
  deriving DecidableEq, Repr

/-- Return value of get_satellite_data: a dict with single key ndvi_analysis. -/
structure SatelliteData where
  ndvi_analysis : String
  deriving DecidableEq, Repr

/-- Return value of query_tidb_history: a dict with single key historical_precedent. -/
structure HistoricalData where
  historical_precedent : String
  deriving DecidableEq, Repr

/-- Outcome of the database interaction inside query_tidb_history: the query
returns a row (whose first column is a string), returns no row, or the
connector raises a mysql.connector.Error with some message. -/
inductive DBOutcome where
  | found (row : String)
  | notFound
  | dbError (message : String)
  deriving DecidableEq, Repr

/-- Outcome of the chain.invoke call: the model answers with content, or the
call raises an exception with some message. -/
inductive LLMOutcome where
  | ok (content : String)
  | err (message : String)
  deriving DecidableEq, Repr

/-- The FastAPI HTTPException carried by raise statements and except clauses. -/
structure HTTPException where
  status_code : Nat
  detail : String
  deriving DecidableEq, Repr

/-- The values get_farm_analysis can deliver to the HTTP layer: the success
body, the error body produced by the except-HTTPException branch, or a raised
HTTPException (mapped by FastAPI to a 500-class response). -/
inductive ApiResponse where
  | success (analysis : String)
  | errorBody (message : String)
  | httpError (status : Nat) (detail : String)
  deriving DecidableEq, Repr

/-- get_weather_data from main.py: the mock path prints and returns a fixed
forecast dict for every location. -/
def get_weather_data (_location : String) : WeatherData :=
  ⟨"14-day forecast shows high humidity and rising temperatures."⟩

/-- get_satellite_data from main.py: the mock path prints and returns a fixed
NDVI dict for every location. -/
def get_satellite_data (_location : String) : SatelliteData :=
  ⟨"NDVI readings indicate moderate plant stress in Block B."⟩

/-- query_tidb_history from main.py: on a found row it returns the row value,
on no row a fixed not-found message, and on a caught mysql.connector.Error it
prints and returns a fixed error message inside the same dict field. -/
def query_tidb_history (_location _crop : String) (db : DBOutcome) : HistoricalData :=
  match db with
  | DBOutcome.found row => ⟨row⟩
  | DBOutcome.notFound => ⟨"No similar historical data found."⟩
  | DBOutcome.dbError _ => ⟨"Error querying historical data."⟩

/-- get_weather_data viewed through the try-except of get_farm_analysis: its
body contains no reachable raise, so it always returns normally. -/
def get_weather_dataE (location : String) : Except HTTPException WeatherData :=
  Except.ok (get_weather_data location)

/-- get_satellite_data viewed through the try-except of get_farm_analysis. -/
def get_satellite_dataE (location : String) : Except HTTPException SatelliteData :=
  Except.ok (get_satellite_data location)

/-- query_tidb_history viewed through the try-except of get_farm_analysis:
the mysql.connector.Error case is caught inside the function itself, so no
HTTPException ever escapes. -/
def query_tidb_historyE (location crop : String) (db : DBOutcome) :
    Except HTTPException HistoricalData :=
  Except.ok (query_tidb_history location crop db)

/-- Fixed text of the prompt template before the location slot. -/
def tmpl_head : String :=
  "\n        You are an expert AI agronomist for farmers in the Western Cape, South Africa.\n        Your task is to provide a clear, actionable recommendation based on the data provided.\n\n        DATA:\n        - Location: "

/-- Fixed text of the prompt template between the location and crop slots. -/
def tmpl_crop : String := "\n        - Crop Type: "

/-- Fixed text of the prompt template between the crop and weather slots. -/
def tmpl_weather : String := "\n        - 14-Day Weather Forecast: "

/-- Fixed text of the prompt template between the weather and satellite slots. -/
def tmpl_satellite : String := "\n        - Satellite NDVI Analysis: "

/-- Fixed text of the prompt template between the satellite and history slots. -/
def tmpl_history : String := "\n        - Historical Precedent from TiDB: "

/-- Fixed text of the prompt template after the history slot. -/
def tmpl_tail : String :=
  "\n\n        Based on all of this data, provide a \"Risk Assessment\" and a \"Recommended Action\".\n        Format your response clearly and concisely.\n        "

/-- Rendering of the ChatPromptTemplate of main.py: the five slot values are
interpolated between the fixed template segments. -/
def prompt_template (location crop_type weather satellite history : String) : String :=
  tmpl_head ++ location ++ tmpl_crop ++ crop_type ++ tmpl_weather ++ weather ++
    tmpl_satellite ++ satellite ++ tmpl_history ++ history ++ tmpl_tail

/-- The try-block of get_farm_analysis: collect the three signals, stopping at
the first HTTPException (none of the three functions can raise one). -/
def collect_data (request : FarmDataRequest) (db : DBOutcome) :
    Except HTTPException (WeatherData × SatelliteData × HistoricalData) := do
  let weather_data ← get_weather_dataE request.farm_location
  let satellite_data ← get_satellite_dataE request.farm_location
  let historical_data ← query_tidb_historyE request.farm_location request.crop_type db
  return (weather_data, satellite_data, historical_data)

/-- The prompt string that chain.invoke renders from the request fields and the
three collected signals on a given run. -/
def assembled_prompt (request : FarmDataRequest) (db : DBOutcome) : String :=
  prompt_template request.farm_location request.crop_type
    (get_weather_data request.farm_location).forecast
    (get_satellite_data request.farm_location).ndvi_analysis
    (query_tidb_history request.farm_location request.crop_type db).historical_precedent

/-- get_farm_analysis from main.py. The first component is the delivered
response; the second records whether chain.invoke was called on this run. -/
def get_farm_analysis (request : FarmDataRequest) (db : DBOutcome)
    (llm : String → LLMOutcome) : ApiResponse × Bool :=
  match collect_data request db with
  | Except.error e => (ApiResponse.errorBody e.detail, false)
  | Except.ok (weather_data, satellite_data, historical_data) =>
    match llm (prompt_template request.farm_location request.crop_type
        weather_data.forecast satellite_data.ndvi_analysis
        historical_data.historical_precedent) with
    | LLMOutcome.ok response => (ApiResponse.success response, true)
    | LLMOutcome.err e => (ApiResponse.httpError 500 ("LLM error: " ++ e), true)

/-- A concrete LLM that always answers with fixed content. -/
def llm_ok_const : String → LLMOutcome := fun _ => LLMOutcome.ok "Sample analysis."

/-- A concrete LLM that always answers with empty content. -/
def llm_empty_const : String → LLMOutcome := fun _ => LLMOutcome.ok ""

-- helper lemmas about a run of the pipeline

/-- Data collection always succeeds with the three source values. -/
theorem collect_data_eq (request : FarmDataRequest) (db : DBOutcome) :
    collect_data request db = Except.ok
      (get_weather_data request.farm_location,
       get_satellite_data request.farm_location,
       query_tidb_history request.farm_location request.crop_type db) := rfl

/-- A run of get_farm_analysis is the dispatch on the LLM outcome applied to
the assembled prompt. -/
theorem get_farm_analysis_ok_run (request : FarmDataRequest) (db : DBOutcome)
    (llm : String → LLMOutcome) (content : String)
    (h : llm (assembled_prompt request db) = LLMOutcome.ok content) :
    get_farm_analysis request db llm = (ApiResponse.success content, true) := by
  show (match llm (assembled_prompt request db) with
    | LLMOutcome.ok response => (ApiResponse.success response, true)
    | LLMOutcome.err e => (ApiResponse.httpError 500 ("LLM error: " ++ e), true)) =
    (ApiResponse.success content, true)
  rw [h]

/-- A failing LLM call turns into a raised HTTPException with status 500. -/
theorem get_farm_analysis_err_run (request : FarmDataRequest) (db : DBOutcome)
    (llm : String → LLMOutcome) (e : String)
    (h : llm (assembled_prompt request db) = LLMOutcome.err e) :
    get_farm_analysis request db llm = (ApiResponse.httpError 500 ("LLM error: " ++ e), true) := by
  show (match llm (assembled_prompt request db) with
    | LLMOutcome.ok response => (ApiResponse.success response, true)
    | LLMOutcome.err e => (ApiResponse.httpError 500 ("LLM error: " ++ e), true)) =
    (ApiResponse.httpError 500 ("LLM error: " ++ e), true)
  rw [h]

-- claim theorems

/-- Claim C1 is violated by the code: on a run where the history source fails
with a connectivity error (mysql.connector.Error), query_tidb_history swallows
the error into the text field, data collection reports no failure, and the
pipeline still invokes the LLM; with a succeeding LLM the endpoint even
returns a success body instead of a failure result. -/
theorem c1_db_error_still_invokes_llm :
    get_farm_analysis ⟨"Stellenbosch", "grapes"⟩ (DBOutcome.dbError "connection refused")
      llm_ok_const = (ApiResponse.success "Sample analysis.", true) := rfl

/-- Claim C2 counterexample: with an LLM that answers with empty content, the
pipeline returns a success body whose narrative is the empty string, so the
result is neither a success with a non-empty narrative nor a failure result of
any form. -/
theorem c2_counterexample :
    ¬ ((∃ s, (get_farm_analysis ⟨"Stellenbosch", "grapes"⟩ DBOutcome.notFound
          llm_empty_const).1 = ApiResponse.success s ∧ s ≠ "")
      ∨ (∃ m, (get_farm_analysis ⟨"Stellenbosch", "grapes"⟩ DBOutcome.notFound
          llm_empty_const).1 = ApiResponse.errorBody m)
      ∨ (∃ st d, (get_farm_analysis ⟨"Stellenbosch", "grapes"⟩ DBOutcome.notFound
          llm_empty_const).1 = ApiResponse.httpError st d)) := by
  have hres : (get_farm_analysis ⟨"Stellenbosch", "grapes"⟩ DBOutcome.notFound
      llm_empty_const).1 = ApiResponse.success "" := rfl
  rw [hres]
  rintro (⟨s, hs, hne⟩ | ⟨m, hm⟩ | ⟨st, d, hd⟩)
  · exact hne (ApiResponse.success.inj hs).symm
  · exact ApiResponse.noConfusion hm
  · exact ApiResponse.noConfusion hd

/-- Claim C2 amended: the pipeline result is either a success body carrying
the LLM response string, which may be empty, or a raised HTTPException with
status 500 whose message starts with the prefix LLM error, attributing the
failure to the LLM stage; no failure result without that attribution occurs. -/
theorem c2_amended (request : FarmDataRequest) (db : DBOutcome)
    (llm : String → LLMOutcome) :
    (∃ s, (get_farm_analysis request db llm).1 = ApiResponse.success s)
    ∨ (∃ e, (get_farm_analysis request db llm).1
        = ApiResponse.httpError 500 ("LLM error: " ++ e)) := by
  cases h : llm (assembled_prompt request db) with
  | ok content =>
    exact Or.inl ⟨content, by rw [get_farm_analysis_ok_run request db llm content h]⟩
  | err e =>
    exact Or.inr ⟨e, by rw [get_farm_analysis_err_run request db llm e h]⟩

/-- Claim C3: when the history query finds no row, the pipeline proceeds with
the fixed not-found placeholder, invokes the LLM, and on a successful LLM call
returns the success body; no row found is not treated as a query error. -/
theorem c3_not_found_reaches_llm (request : FarmDataRequest)
    (llm : String → LLMOutcome) (content : String)
    (h : llm (assembled_prompt request DBOutcome.notFound) = LLMOutcome.ok content) :
    get_farm_analysis request DBOutcome.notFound llm = (ApiResponse.success content, true)
    ∧ (query_tidb_history request.farm_location request.crop_type
        DBOutcome.notFound).historical_precedent = "No similar historical data found." :=
  ⟨get_farm_analysis_ok_run request DBOutcome.notFound llm content h, rfl⟩

/-- Claim C3 witness at a concrete request and a concrete succeeding LLM. -/
theorem c3_witness :
    get_farm_analysis ⟨"Stellenbosch", "grapes"⟩ DBOutcome.notFound llm_ok_const
      = (ApiResponse.success "Sample analysis.", true) :=
  (c3_not_found_reaches_llm ⟨"Stellenbosch", "grapes"⟩ llm_ok_const "Sample analysis." rfl).1

/-- Claim C4: on every run the prompt handed to the LLM interpolates all three
signal texts, in template order, and the history slot always carries a value or
an explicit placeholder: the found row, the not-found message, or the query
error message. Partial bundles cannot reach the LLM call. -/
theorem c4_complete_bundle_reaches_llm (request : FarmDataRequest) (db : DBOutcome) :
    (∃ a b c d, assembled_prompt request db =
        a ++ (get_weather_data request.farm_location).forecast ++ b
          ++ (get_satellite_data request.farm_location).ndvi_analysis ++ c
          ++ (query_tidb_history request.farm_location request.crop_type db).historical_precedent
          ++ d)
    ∧ ((∃ r, db = DBOutcome.found r ∧
          (query_tidb_history request.farm_location request.crop_type db).historical_precedent = r)
      ∨ (query_tidb_history request.farm_location request.crop_type db).historical_precedent
          = "No similar historical data found."
      ∨ (query_tidb_history request.farm_location request.crop_type db).historical_precedent
          = "Error querying historical data.") := by
  constructor
  · exact ⟨tmpl_head ++ request.farm_location ++ tmpl_crop ++ request.crop_type ++ tmpl_weather,
      tmpl_satellite, tmpl_history, tmpl_tail, rfl⟩
  · cases db with
    | found r => exact Or.inl ⟨r, rfl, rfl⟩
    | notFound => exact Or.inr (Or.inl rfl)
    | dbError m => exact Or.inr (Or.inr rfl)

/-- Claim C5 is violated by the code: a connectivity or query failure in the
history source is not surfaced as a typed error naming the stage; instead
query_tidb_history returns a normal signal dict whose text field holds the
fixed error message, indistinguishable in type from a successful signal. -/
theorem c5_error_swallowed_into_text :
    query_tidb_history "Stellenbosch" "grapes" (DBOutcome.dbError "connection refused")
      = ⟨"Error querying historical data."⟩
    ∧ query_tidb_historyE "Stellenbosch" "grapes" (DBOutcome.dbError "connection refused")
      = Except.ok ⟨"Error querying historical data."⟩ := ⟨rfl, rfl⟩

/-- Claim C6: prompt rendering is deterministic; two runs given equal
location, crop type, forecast text, NDVI text and historical-precedent text
render the identical prompt string. -/
theorem c6_render_deterministic (l₁ c₁ w₁ s₁ h₁ l₂ c₂ w₂ s₂ h₂ : String)
    (hl : l₁ = l₂) (hc : c₁ = c₂) (hw : w₁ = w₂) (hs : s₁ = s₂) (hh : h₁ = h₂) :
    prompt_template l₁ c₁ w₁ s₁ h₁ = prompt_template l₂ c₂ w₂ s₂ h₂ := by
  rw [hl, hc, hw, hs, hh]

/-- Claim C6 witness: two renders at the same concrete slot values agree. -/
theorem c6_witness :
    prompt_template "Stellenbosch" "grapes" "humid" "stressed" "none" =
      prompt_template "Stellenbosch" "grapes" "humid" "stressed" "none" :=
  c6_render_deterministic "Stellenbosch" "grapes" "humid" "stressed" "none"
    "Stellenbosch" "grapes" "humid" "stressed" "none" rfl rfl rfl rfl rfl

/-- Claim C7: for every request, when the LLM call on the assembled prompt
succeeds the endpoint returns the success body carrying exactly the LLM
response text, and when it fails the endpoint raises an HTTPException with
status 500 carrying a non-empty message. -/
theorem c7_endpoint_contract (request : FarmDataRequest) (db : DBOutcome)
    (llm : String → LLMOutcome) :
    (∃ content, llm (assembled_prompt request db) = LLMOutcome.ok content ∧
      get_farm_analysis request db llm = (ApiResponse.success content, true))
    ∨ (∃ e, llm (assembled_prompt request db) = LLMOutcome.err e ∧
      get_farm_analysis request db llm
        = (ApiResponse.httpError 500 ("LLM error: " ++ e), true) ∧
      0 < ("LLM error: " ++ e).length) := by
  cases h : llm (assembled_prompt request db) with
  | ok content =>
    exact Or.inl ⟨content, rfl, get_farm_analysis_ok_run request db llm content h⟩
  | err e =>
    refine Or.inr ⟨e, rfl, get_farm_analysis_err_run request db llm e h, ?_⟩
    rw [String.length_append]
    exact Nat.lt_of_lt_of_le (by decide) (Nat.le_add_right _ _)

/-- Claim C8 counterexample: when the query succeeds with a row whose value is
the empty string, query_tidb_history maps the key to the empty string, so the
returned text is not non-empty. -/
theorem c8_counterexample :
    ¬ ∃ s, query_tidb_history "Stellenbosch" "grapes" (DBOutcome.found "") = ⟨s⟩ ∧ s ≠ "" := by
  rintro ⟨s, h1, h2⟩
  exact h2 (congrArg HistoricalData.historical_precedent h1).symm

/-- Claim C8 amended: query_tidb_history is total over database outcomes and
always returns a dict with the single key historical_precedent mapped to a
string, never propagating an exception; the string is the found row value when
a row is returned (and so may be empty), and is one of two fixed non-empty
messages in the no-row and error cases. -/
theorem c8_amended (location crop : String) (db : DBOutcome) :
    ∃ s, query_tidb_history location crop db = ⟨s⟩
      ∧ query_tidb_historyE location crop db = Except.ok ⟨s⟩
      ∧ ((∃ r, db = DBOutcome.found r ∧ s = r)
        ∨ (db = DBOutcome.notFound ∧ s = "No similar historical data found."
            ∧ s.length ≠ 0)
        ∨ (∃ m, db = DBOutcome.dbError m ∧ s = "Error querying historical data."
            ∧ s.length ≠ 0)) := by
  cases db with
  | found r => exact ⟨r, rfl, rfl, Or.inl ⟨r, rfl, rfl⟩⟩
  | notFound => exact ⟨_, rfl, rfl, Or.inr (Or.inl ⟨rfl, rfl, by decide⟩)⟩
  | dbError m => exact ⟨_, rfl, rfl, Or.inr (Or.inr ⟨m, rfl, rfl, by decide⟩)⟩

/-- Claim C9: the weather and satellite sources are constant functions of the
location; every call returns the same fixed dict and neither can fail. -/
theorem c9_mock_sources_constant (location : String) :
    get_weather_data location
        = ⟨"14-day forecast shows high humidity and rising temperatures."⟩
    ∧ get_satellite_data location
        = ⟨"NDVI readings indicate moderate plant stress in Block B."⟩
    ∧ get_weather_dataE location = Except.ok (get_weather_data location)
    ∧ get_satellite_dataE location = Except.ok (get_satellite_data location) :=
  ⟨rfl, rfl, rfl, rfl⟩

/-- Claim C10: data collection always succeeds with the three source values,
so the except-HTTPException branch of get_farm_analysis, which would produce
the error body, is unreachable; every run invokes the LLM and delivers either
the success body or the raised LLM HTTPException. -/
theorem c10_error_branch_unreachable (request : FarmDataRequest) (db : DBOutcome)
    (llm : String → LLMOutcome) :
    collect_data request db = Except.ok
      (get_weather_data request.farm_location,
       get_satellite_data request.farm_location,
       query_tidb_history request.farm_location request.crop_type db)
    ∧ ((∃ content, get_farm_analysis request db llm = (ApiResponse.success content, true))
      ∨ (∃ e, get_farm_analysis request db llm
          = (ApiResponse.httpError 500 ("LLM error: " ++ e), true))) := by
  refine ⟨collect_data_eq request db, ?_⟩
  cases h : llm (assembled_prompt request db) with
  | ok content => exact Or.inl ⟨content, get_farm_analysis_ok_run request db llm content h⟩
  | err e => exact Or.inr ⟨e, get_farm_analysis_err_run request db llm e h⟩
